import Mathlib

/-!
Shallow embedding of the retry/fallback logic of
`src/components/UniversalVideoPlayer.tsx` and
`src/components/SocialMediaPlayer.tsx`.

The two components delegate URL detection to helpers
(`detectVideoSource`, `canPlayVideo`, `getSocialMediaConfig`) that live
outside the repository snapshot; those helpers' results appear here as
explicit parameters (`SourceInfo`, `PlaybackEligibility`,
`Option SocialMediaConfig`), exactly as the components consume them.
React state updates are modelled as pure state-transition functions and
the `onError` callback as the `Option String` second component of each
transition's result.
-/

/-- Result of `detectVideoSource(url)` as consumed by
`UniversalVideoPlayer` (`sourceInfo`): a type tag, a platform label,
the `requiresWebView` / `requiresAgeVerification` flags and an optional
video id. -/
structure SourceInfo where
  type : String
  platform : String
  requiresWebView : Bool
  requiresAgeVerification : Bool
  videoId : Option String
deriving Repr, DecidableEq

/-- Result of `canPlayVideo(url, tier)` as consumed by
`UniversalVideoPlayer` (`playbackEligibility`). -/
structure PlaybackEligibility where
  canPlay : Bool
  reason : Option String
deriving Repr, DecidableEq

/-- JavaScript `x || fallback` on an optional string: `undefined`/`null`
and the empty string are falsy. -/
def jsOrElse (x : Option String) (fallback : String) : String :=
  match x with
  | some s => if s = "" then fallback else s
  | none => fallback

/-- JavaScript truthiness of a nullable string (`if (x)`): truthy iff
present and non-empty. -/
def jsTruthy (x : Option String) : Bool :=
  match x with
  | some s => s != ""
  | none => false

/-- The rendering surface chosen by `UniversalVideoPlayer`'s top-level
return expression (lines 632-652). -/
inductive PlayerChoice where
  | socialMedia
  | webView
  | nativePlayer
  | errorView
deriving Repr, DecidableEq

/-- The source types routed to the embedded web view by
`shouldUseWebView` (lines 598-615), besides `requiresWebView`. -/
def webViewTypes : List String :=
  ["youtube", "vimeo", "webview", "adult", "twitter", "instagram",
   "tiktok", "twitch", "facebook", "dailymotion", "rumble", "odysee",
   "bilibili", "gdrive", "dropbox"]

/-- The source types handled by the native player (lines 617-623 and
69-73). -/
def nativeTypes : List String := ["direct", "stream", "hls", "dash"]

/-- `useSocialMediaPlayer` (lines 594-596): a social-media config exists
and the detected type is twitter, instagram or tiktok.  The presence of
`getSocialMediaConfig(url)` is the boolean `hasSocialConfig`. -/
def useSocialMediaPlayer (hasSocialConfig : Bool) (si : SourceInfo) : Bool :=
  hasSocialConfig &&
    (si.type == "twitter" || si.type == "instagram" || si.type == "tiktok")

/-- `shouldUseWebView` (lines 598-615). -/
def shouldUseWebView (hasSocialConfig : Bool) (si : SourceInfo) : Bool :=
  !useSocialMediaPlayer hasSocialConfig si &&
    (si.requiresWebView || webViewTypes.contains si.type)

/-- `shouldUseNativePlayerRender` (lines 617-623). -/
def shouldUseNativePlayerRender (hasSocialConfig : Bool) (si : SourceInfo) : Bool :=
  !useSocialMediaPlayer hasSocialConfig si &&
    !shouldUseWebView hasSocialConfig si &&
    nativeTypes.contains si.type

/-- The ternary chain of `UniversalVideoPlayer`'s return expression
(lines 634-650). -/
def selectPlayer (hasSocialConfig : Bool) (si : SourceInfo) : PlayerChoice :=
  if useSocialMediaPlayer hasSocialConfig si then .socialMedia
  else if shouldUseWebView hasSocialConfig si then .webView
  else if shouldUseNativePlayerRender hasSocialConfig si then .nativePlayer
  else .errorView

lemma useSocialMediaPlayer_eq_true (c : Bool) (si : SourceInfo) :
    useSocialMediaPlayer c si = true ↔
      c = true ∧ (si.type = "twitter" ∨ si.type = "instagram" ∨ si.type = "tiktok") := by
  simp [useSocialMediaPlayer, Bool.and_eq_true, Bool.or_eq_true, or_assoc]

lemma shouldUseWebView_eq_true (c : Bool) (si : SourceInfo) :
    shouldUseWebView c si = true ↔
      ¬ useSocialMediaPlayer c si = true ∧
        (si.requiresWebView = true ∨ si.type ∈ webViewTypes) := by
  simp [shouldUseWebView, Bool.and_eq_true, Bool.or_eq_true]

lemma shouldUseNativePlayerRender_eq_true (c : Bool) (si : SourceInfo) :
    shouldUseNativePlayerRender c si = true ↔
      ¬ useSocialMediaPlayer c si = true ∧
        ¬ shouldUseWebView c si = true ∧
        si.type ∈ nativeTypes := by
  simp [shouldUseNativePlayerRender, Bool.and_eq_true, and_assoc]

/-- C1: `UniversalVideoPlayer` selects exactly one rendering strategy as
a function of the detection result and config presence: the social-media
player iff a social-media config exists and the type is twitter,
instagram or tiktok; the embedded web view iff (otherwise)
`requiresWebView` holds or the type is a listed web-view type; the
native player iff (otherwise) the type is direct, stream, hls or dash;
and the error view otherwise. -/
theorem uvp_player_selection_spec (c : Bool) (si : SourceInfo) :
    (selectPlayer c si = .socialMedia ↔
      c = true ∧ (si.type = "twitter" ∨ si.type = "instagram" ∨ si.type = "tiktok"))
  ∧ (selectPlayer c si = .webView ↔
      (¬ useSocialMediaPlayer c si = true ∧
        (si.requiresWebView = true ∨ si.type ∈ webViewTypes)))
  ∧ (selectPlayer c si = .nativePlayer ↔
      (¬ useSocialMediaPlayer c si = true ∧
        ¬ shouldUseWebView c si = true ∧
        si.type ∈ nativeTypes))
  ∧ (selectPlayer c si = .errorView ↔
      (¬ useSocialMediaPlayer c si = true ∧
        ¬ shouldUseWebView c si = true ∧
        ¬ shouldUseNativePlayerRender c si = true)) := by
  have h1 := useSocialMediaPlayer_eq_true c si
  have h2 := shouldUseWebView_eq_true c si
  have h3 := shouldUseNativePlayerRender_eq_true c si
  cases ha : useSocialMediaPlayer c si <;>
    cases hb : shouldUseWebView c si <;>
      cases hc : shouldUseNativePlayerRender c si <;>
        simp_all [selectPlayer]

/-- Witness for C1 at a concrete input: a twitter URL with a social
config present is routed to the social-media player. -/
theorem uvp_player_selection_spec_witness :
    selectPlayer true ⟨"twitter", "Twitter", true, false, none⟩ = .socialMedia :=
  (uvp_player_selection_spec true ⟨"twitter", "Twitter", true, false, none⟩).1.2
    ⟨rfl, Or.inl rfl⟩

/-! ## SocialMediaPlayer -/

/-- One entry of `config.embedStrategies` as used by
`SocialMediaPlayer` (name and `getEmbedUrl`; the optional
headers/userAgent fields play no role in the claims' logic). -/
structure EmbedStrategy where
  name : String
  getEmbedUrl : String → Option String

/-- The part of `getSocialMediaConfig(url)`'s result that
`SocialMediaPlayer` consumes. -/
structure SocialMediaConfig where
  platform : String
  embedStrategies : List EmbedStrategy

/-- The React state of `SocialMediaPlayer` (lines 38-43). -/
structure SMPState where
  isLoading : Bool
  error : Option String
  currentStrategyIndex : Nat
  retryCount : Nat
  embedUrl : Option String

/-- Initial `SocialMediaPlayer` state: `useState(true)`,
`useState(null)`, `useState(0)`, `useState(0)`, `useState(null)`. -/
def smpInit : SMPState :=
  { isLoading := true
    error := none
    currentStrategyIndex := 0
    retryCount := 0
    embedUrl := none }

/-- Fallback strategy value for the (guarded, hence unreachable)
out-of-bounds list access in `tryNextStrategy`. -/
def dummyStrategy : EmbedStrategy := ⟨"", fun _ => none⟩

/-- `tryNextStrategy` (lines 53-83), restricted to the case where a
config exists (the `!config` guard is handled at mount, see
`smpMount`): if the index is past the end, set the all-strategies
failure error and stop loading; if the current strategy produces no
embed URL, advance the index; otherwise install the embed URL.  The
second component is the argument passed to `onError`, when invoked. -/
def tryNextStrategy (cfg : SocialMediaConfig) (url : String) (s : SMPState) :
    SMPState × Option String :=
  if s.currentStrategyIndex ≥ cfg.embedStrategies.length then
    let msg := "Failed to load " ++ cfg.platform ++
      " video after trying all strategies"
    ({ s with error := some msg, isLoading := false }, some msg)
  else
    match (cfg.embedStrategies.getD s.currentStrategyIndex dummyStrategy).getEmbedUrl url with
    | none => ({ s with currentStrategyIndex := s.currentStrategyIndex + 1 }, none)
    | some u => ({ s with embedUrl := some u, isLoading := true, error := none }, none)

/-- The strategy chain: the effect on `[currentStrategyIndex]`
(lines 97-102) re-invokes `tryNextStrategy` each time the index
advances.  `fuel` bounds the number of invocations; `runChain` below
supplies enough fuel for the chain to run to quiescence.  Returns the
final state, the `onError` argument (if any) and the list of strategy
indices whose `getEmbedUrl` was invoked, in order. -/
def runChainFuel (cfg : SocialMediaConfig) (url : String) :
    Nat → SMPState → SMPState × Option String × List Nat
  | 0, s => (s, none, [])
  | fuel + 1, s =>
    let r := tryNextStrategy cfg url s
    if r.1.currentStrategyIndex = s.currentStrategyIndex + 1 then
      let rest := runChainFuel cfg url fuel r.1
      (rest.1, rest.2.1, s.currentStrategyIndex :: rest.2.2)
    else
      (r.1, r.2,
        if s.currentStrategyIndex < cfg.embedStrategies.length then
          [s.currentStrategyIndex]
        else [])

/-- Run the strategy chain to quiescence from state `s`. -/
def runChain (cfg : SocialMediaConfig) (url : String) (s : SMPState) :
    SMPState × Option String × List Nat :=
  runChainFuel cfg url (cfg.embedStrategies.length + 1 - s.currentStrategyIndex) s

/-- `handleError` (lines 130-159), for the case where a config exists
(the handler returns immediately otherwise): on a WebView load error,
either advance to the next strategy (the scheduled
`setCurrentStrategyIndex(prev => prev + 1)`) or report the final
error.  `description` is `nativeEvent.description`. -/
def handleError (cfg : SocialMediaConfig) (autoRetry : Bool)
    (description : Option String) (s : SMPState) : SMPState × Option String :=
  let errorMsg := jsOrElse description "Unknown error"
  if autoRetry = true ∧ s.currentStrategyIndex < cfg.embedStrategies.length - 1 then
    ({ s with currentStrategyIndex := s.currentStrategyIndex + 1 }, none)
  else
    let finalError := "Failed to load " ++ cfg.platform ++ " video: " ++ errorMsg
    ({ s with error := some finalError, isLoading := false }, some finalError)

/-- `handleManualRetry` (lines 192-197). -/
def handleManualRetry (s : SMPState) : SMPState :=
  { s with
    retryCount := s.retryCount + 1
    currentStrategyIndex := 0
    error := none }

/-- The affordance shown at the bottom of `renderError`
(lines 219-230): the retry button while `retryCount < maxRetries`, the
max-retries notice once `retryCount >= maxRetries`. -/
inductive RetryAffordance where
  | retryButton
  | maxRetriesNotice
deriving Repr, DecidableEq

/-- Which affordance `renderError` offers (lines 219-230). -/
def errorAffordance (retryCount maxRetries : Nat) : RetryAffordance :=
  if retryCount < maxRetries then .retryButton else .maxRetriesNotice

/-- What `SocialMediaPlayer` renders. -/
inductive SMPView where
  | unsupportedError
  | playbackErrorView
  | webView (embedUrl : String)
deriving Repr, DecidableEq

/-- The component's render result (lines 235-302): the
unsupported-platform error view when `config` is null; `renderError`
when no embed URL is installed or an error is set; otherwise the
WebView on the installed embed URL. -/
def smpRender (config : Option SocialMediaConfig) (s : SMPState) : SMPView :=
  match config, s.embedUrl with
  | none, _ => .unsupportedError
  | some _, none => .playbackErrorView
  | some _, some u =>
    if jsTruthy s.error then .playbackErrorView else .webView u

/-- The mount effect (lines 85-95): with no config, set and report
`Unsupported social media platform`; with a config, start the strategy
chain. -/
def smpMount (config : Option SocialMediaConfig) (url : String)
    (s : SMPState) : SMPState × Option String :=
  match config with
  | none =>
    ({ s with error := some "Unsupported social media platform" },
      some "Unsupported social media platform")
  | some cfg =>
    let r := runChain cfg url s
    (r.1, r.2.1)

/-- C2: with a config present, a WebView load error either advances the
strategy index by exactly one (when `autoRetry` is on and the index is
strictly below `embedStrategies.length - 1`) without reporting, or
stops: it sets the error `Failed to load {platform} video: {errorMsg}`,
clears the loading flag, and passes that error to `onError`. -/
theorem smp_handleError_spec (cfg : SocialMediaConfig) (autoRetry : Bool)
    (d : Option String) (s : SMPState) :
    (autoRetry = true → s.currentStrategyIndex < cfg.embedStrategies.length - 1 →
      (handleError cfg autoRetry d s).1.currentStrategyIndex = s.currentStrategyIndex + 1
      ∧ (handleError cfg autoRetry d s).2 = none)
  ∧ (¬ (autoRetry = true ∧ s.currentStrategyIndex < cfg.embedStrategies.length - 1) →
      (handleError cfg autoRetry d s).1.error =
        some ("Failed to load " ++ cfg.platform ++ " video: " ++ jsOrElse d "Unknown error")
      ∧ (handleError cfg autoRetry d s).1.isLoading = false
      ∧ (handleError cfg autoRetry d s).2 =
        some ("Failed to load " ++ cfg.platform ++ " video: " ++ jsOrElse d "Unknown error")) := by
  constructor
  · intro ha hlt
    simp [handleError, ha, hlt]
  · intro hn
    simp only [handleError]
    rw [if_neg hn]
    exact ⟨rfl, rfl, rfl⟩

/-- Witness for C2: a Twitter config with two strategies, index 0,
autoRetry on, advances to index 1; the same event with autoRetry off
reports the final error. -/
theorem smp_handleError_spec_witness :
    ((handleError ⟨"Twitter", [dummyStrategy, dummyStrategy]⟩ true
        (some "net::ERR_FAILED") smpInit).1.currentStrategyIndex = 1
      ∧ (handleError ⟨"Twitter", [dummyStrategy, dummyStrategy]⟩ true
        (some "net::ERR_FAILED") smpInit).2 = none)
  ∧ (handleError ⟨"Twitter", [dummyStrategy, dummyStrategy]⟩ false
        (some "net::ERR_FAILED") smpInit).2 =
      some "Failed to load Twitter video: net::ERR_FAILED" :=
  ⟨(smp_handleError_spec ⟨"Twitter", [dummyStrategy, dummyStrategy]⟩ true
      (some "net::ERR_FAILED") smpInit).1 rfl (by decide),
   ((smp_handleError_spec ⟨"Twitter", [dummyStrategy, dummyStrategy]⟩ false
      (some "net::ERR_FAILED") smpInit).2 (by simp)).2.2⟩

/-- C6: `handleManualRetry` resets the strategy index to 0, clears the
error and increments the manual retry counter by exactly one; the
`renderError` view offers the retry button iff the counter is strictly
below `maxRetries`, and the max-retries notice iff it has reached
`maxRetries`. -/
theorem smp_manual_retry_spec (s : SMPState) (retryCount maxRetries : Nat) :
    (handleManualRetry s).currentStrategyIndex = 0
  ∧ (handleManualRetry s).error = none
  ∧ (handleManualRetry s).retryCount = s.retryCount + 1
  ∧ (errorAffordance retryCount maxRetries = .retryButton ↔ retryCount < maxRetries)
  ∧ (errorAffordance retryCount maxRetries = .maxRetriesNotice ↔ maxRetries ≤ retryCount) := by
  refine ⟨rfl, rfl, rfl, ?_, ?_⟩ <;>
    · simp only [errorAffordance]
      split <;> simp_all

/-- Witness for C6: at 0 manual retries out of 3 the retry button is
offered; after 3 manual retries the notice is shown. -/
theorem smp_manual_retry_spec_witness :
    errorAffordance 0 3 = .retryButton ∧ errorAffordance 3 3 = .maxRetriesNotice :=
  ⟨(smp_manual_retry_spec smpInit 0 3).2.2.2.1.2 (by decide),
   (smp_manual_retry_spec smpInit 3 3).2.2.2.2.2 (by decide)⟩

/-- C8: when `getSocialMediaConfig(url)` is null, the mount effect
reports exactly `Unsupported social media platform`, no embed URL is
ever produced (the state's `embedUrl` is unchanged from `none`), and
the component renders the unsupported-platform error view in every
state — in particular it never mounts a WebView. -/
theorem smp_unsupported_platform_spec (url : String) :
    (smpMount none url smpInit).2 = some "Unsupported social media platform"
  ∧ (smpMount none url smpInit).1.embedUrl = none
  ∧ smpRender none (smpMount none url smpInit).1 = .unsupportedError
  ∧ ∀ (s : SMPState) (u : String), smpRender none s ≠ .webView u := by
  refine ⟨rfl, rfl, rfl, ?_⟩
  intro s u
  simp [smpRender]

/-- Witness for C8 at a concrete URL. -/
theorem smp_unsupported_platform_spec_witness :
    (smpMount none "https://example.com/clip" smpInit).2 =
      some "Unsupported social media platform"
  ∧ smpRender none smpInit ≠ .webView "https://example.com/clip" :=
  ⟨(smp_unsupported_platform_spec "https://example.com/clip").1,
   (smp_unsupported_platform_spec "https://example.com/clip").2.2.2 smpInit
     "https://example.com/clip"⟩

/-! ## UniversalVideoPlayer: WebView retry state machine -/

/-- The component inputs the WebView handlers close over: the detected
source, the original `url` prop and the `maxRetries` prop
(default 3). -/
structure UVPConfig where
  sourceType : String
  platform : String
  url : String
  maxRetries : Nat
deriving Repr, DecidableEq

/-- The state the WebView handlers read and write: `retryCount`,
`isLoading`, `playbackError`. -/
structure UVPState where
  retryCount : Nat
  isLoading : Bool
  playbackError : Option String
deriving Repr, DecidableEq

/-- Initial state: `useState(0)`, `useState(true)`, `useState(null)`. -/
def uvpInit : UVPState :=
  { retryCount := 0, isLoading := true, playbackError := none }

/-- Events delivered to `UniversalVideoPlayer`'s WebView handlers
(lines 400-488) and the load-timeout callback (lines 260-274). -/
inductive WVEvent where
  | loadStart
  | loadEnd
  | loadError (description : String)
  | loadTimeout
  | httpError (statusCode : Nat) (eventUrl : String)
deriving Repr, DecidableEq

/-- The final YouTube error text (line 433). -/
def youtubeFinalError (maxRetries : Nat) : String :=
  "YouTube 視頻載入失敗\n\n可能原因：\n• 視頻被設為私人或已刪除\n• 視頻限制嵌入播放\n• 地區限制\n• 網路連線問題\n\n已嘗試 "
    ++ toString maxRetries
    ++ " 種不同的載入方式。\n\n建議：\n1. 檢查視頻連結是否正確\n2. 在瀏覽器中測試是否能播放\n3. 稍後再試"

/-- The final adult-platform error text (line 450). -/
def adultFinalError (platform : String) : String :=
  platform ++ " 無法載入。這可能是由於網站結構變更或網路問題。請確認連結有效或稍後再試。"

/-- The load-timeout error text (line 262). -/
def timeoutErrorText : String :=
  "Video load timeout. The video is taking too long to load."

/-- The state written by every scheduled automatic retry
(`setRetryCount(prev => prev + 1); setIsLoading(true);
setPlaybackError(null)`). -/
def retryUpdate (s : UVPState) : UVPState :=
  { s with
    retryCount := s.retryCount + 1
    isLoading := true
    playbackError := none }

/-- One step of the WebView-path state machine, translated from the
`onLoadStart` / `onLoadEnd` / `onError` / `onHttpError` handlers
(lines 400-488) and `handleLoadTimeout` (lines 260-274).  The second
component is the argument passed to `onError`, when invoked. -/
def wvStep (c : UVPConfig) (e : WVEvent) (s : UVPState) : UVPState × Option String :=
  match e with
  | .loadStart => ({ s with isLoading := true }, none)
  | .loadEnd => ({ s with isLoading := false, retryCount := 0 }, none)
  | .loadError description =>
    if c.sourceType = "youtube" then
      if s.retryCount < c.maxRetries then (retryUpdate s, none)
      else
        let err := youtubeFinalError c.maxRetries
        ({ s with playbackError := some err }, some err)
    else if c.sourceType = "adult" then
      if s.retryCount < c.maxRetries then (retryUpdate s, none)
      else
        let err := adultFinalError c.platform
        ({ s with playbackError := some err }, some err)
    else
      if s.retryCount < c.maxRetries then (retryUpdate s, none)
      else
        let err := "Failed to load " ++ c.platform ++ ": " ++ description
        ({ s with playbackError := some err }, some err)
  | .loadTimeout =>
    if s.retryCount < c.maxRetries then (retryUpdate s, none)
    else
      ({ s with playbackError := some timeoutErrorText, isLoading := false },
        some timeoutErrorText)
  | .httpError statusCode eventUrl =>
    if 400 ≤ statusCode then
      if s.retryCount < c.maxRetries ∧ 500 ≤ statusCode then (retryUpdate s, none)
      else
        let err := "HTTP Error " ++ toString statusCode ++ ": " ++ eventUrl
        ({ s with playbackError := some err }, some err)
    else (s, none)

/-- Run the WebView-path state machine over a sequence of events. -/
def wvRun (c : UVPConfig) (es : List WVEvent) (s : UVPState) : UVPState :=
  es.foldl (fun st e => (wvStep c e st).1) s

/-- The events that represent a failure of the current load attempt:
a load error, a load timeout, or an HTTP error response
(status >= 400). -/
def isFailureEvent : WVEvent → Prop
  | .loadStart => False
  | .loadEnd => False
  | .loadError _ => True
  | .loadTimeout => True
  | .httpError statusCode _ => 400 ≤ statusCode
lemma wvStep_retryCount_cases (c : UVPConfig) (e : WVEvent) (s : UVPState) :
    (wvStep c e s).1.retryCount = 0
  ∨ (wvStep c e s).1.retryCount = s.retryCount
  ∨ ((wvStep c e s).1.retryCount = s.retryCount + 1 ∧ s.retryCount < c.maxRetries) := by
  cases e with
  | loadStart => exact Or.inr (Or.inl rfl)
  | loadEnd => exact Or.inl rfl
  | loadError d =>
    simp only [wvStep]
    split_ifs with h1 h2 h3 h4 h5 <;> simp [retryUpdate] <;> omega
  | loadTimeout =>
    simp only [wvStep]
    split_ifs with h1 <;> simp [retryUpdate] <;> omega
  | httpError statusCode u =>
    simp only [wvStep]
    split_ifs with h1 h2 <;> simp [retryUpdate] <;> omega

lemma wvStep_retryCount_le (c : UVPConfig) (e : WVEvent) (s : UVPState)
    (h : s.retryCount ≤ c.maxRetries) :
    (wvStep c e s).1.retryCount ≤ c.maxRetries := by
  rcases wvStep_retryCount_cases c e s with h0 | hsame | ⟨hsucc, hlt⟩ <;> omega

lemma wvStep_at_max (c : UVPConfig) (s : UVPState) (e : WVEvent)
    (heq : s.retryCount = c.maxRetries) (hfail : isFailureEvent e) :
    (wvStep c e s).1.retryCount = s.retryCount
    ∧ ∃ m, (wvStep c e s).1.playbackError = some m ∧ (wvStep c e s).2 = some m := by
  have hmax : ¬ s.retryCount < c.maxRetries := by omega
  cases e with
  | loadStart => exact absurd hfail id
  | loadEnd => exact absurd hfail id
  | loadError d =>
    simp only [wvStep]
    split_ifs with h1 <;>
      exact ⟨rfl, _, rfl, rfl⟩
  | loadTimeout =>
    simp only [wvStep]
    rw [if_neg hmax]
    exact ⟨rfl, _, rfl, rfl⟩
  | httpError statusCode u =>
    have h400 : 400 ≤ statusCode := hfail
    simp only [wvStep]
    rw [if_pos h400, if_neg (by tauto)]
    exact ⟨rfl, _, rfl, rfl⟩

/-- C3: in the WebView path, `retryCount` never exceeds `maxRetries` in
any state reachable from the initial state; every transition that
increases `retryCount` is guarded by `retryCount < maxRetries`; and at
`retryCount = maxRetries` a further failure leaves the counter
unchanged and instead sets `playbackError` and passes it to
`onError`. -/
theorem uvp_retryCount_bounded (c : UVPConfig) :
    (∀ es : List WVEvent, (wvRun c es uvpInit).retryCount ≤ c.maxRetries)
  ∧ (∀ (s : UVPState) (e : WVEvent),
      s.retryCount < (wvStep c e s).1.retryCount → s.retryCount < c.maxRetries)
  ∧ (∀ (s : UVPState) (e : WVEvent), s.retryCount = c.maxRetries →
      isFailureEvent e →
      (wvStep c e s).1.retryCount = s.retryCount
      ∧ ∃ m, (wvStep c e s).1.playbackError = some m ∧ (wvStep c e s).2 = some m) := by
  refine ⟨?_, ?_, wvStep_at_max c⟩
  · intro es
    suffices h : ∀ (s : UVPState), s.retryCount ≤ c.maxRetries →
        (wvRun c es s).retryCount ≤ c.maxRetries from
      h uvpInit (Nat.zero_le _)
    induction es with
    | nil => intro s hs; exact hs
    | cons e es ih =>
      intro s hs
      exact ih _ (wvStep_retryCount_le c e s hs)
  · intro s e hlt
    rcases wvStep_retryCount_cases c e s with h0 | hsame | ⟨hsucc, hbound⟩ <;> omega

/-- Witness for C3 at concrete inputs: with `maxRetries = 3`, a timeout
at `retryCount = 0` increments under the guard `0 < 3`, and a load
error at `retryCount = 3` reports instead of retrying. -/
theorem uvp_retryCount_bounded_witness :
    (0 : Nat) < 3
  ∧ ((wvStep ⟨"youtube", "YouTube", "https://youtu.be/x", 3⟩
        (.loadError "net::ERR_FAILED") ⟨3, true, none⟩).1.retryCount = 3
      ∧ ∃ m, (wvStep ⟨"youtube", "YouTube", "https://youtu.be/x", 3⟩
          (.loadError "net::ERR_FAILED") ⟨3, true, none⟩).1.playbackError = some m
        ∧ (wvStep ⟨"youtube", "YouTube", "https://youtu.be/x", 3⟩
          (.loadError "net::ERR_FAILED") ⟨3, true, none⟩).2 = some m) :=
  ⟨(uvp_retryCount_bounded ⟨"youtube", "YouTube", "https://youtu.be/x", 3⟩).2.1
      ⟨0, true, none⟩ .loadTimeout (by simp [wvStep, retryUpdate]),
   (uvp_retryCount_bounded ⟨"youtube", "YouTube", "https://youtu.be/x", 3⟩).2.2
      ⟨3, true, none⟩ (.loadError "net::ERR_FAILED") rfl trivial⟩

/-- C10: in the HTTP-error handler, an automatic retry happens iff the
status code is at least 500 and `retryCount < maxRetries`; every status
in 400-499 reports `HTTP Error {statusCode}: {url}` immediately,
regardless of remaining retry budget; and status codes below 400 change
nothing. -/
theorem uvp_httpError_spec (c : UVPConfig) (s : UVPState)
    (statusCode : Nat) (u : String) :
    (s.retryCount < (wvStep c (.httpError statusCode u) s).1.retryCount ↔
      500 ≤ statusCode ∧ s.retryCount < c.maxRetries)
  ∧ (400 ≤ statusCode → statusCode < 500 →
      (wvStep c (.httpError statusCode u) s).1.playbackError =
        some ("HTTP Error " ++ toString statusCode ++ ": " ++ u)
      ∧ (wvStep c (.httpError statusCode u) s).2 =
        some ("HTTP Error " ++ toString statusCode ++ ": " ++ u))
  ∧ (statusCode < 400 → wvStep c (.httpError statusCode u) s = (s, none)) := by
  refine ⟨?_, ?_, ?_⟩
  · constructor
    · intro hlt
      simp only [wvStep] at hlt
      split_ifs at hlt with h1 h2
      · exact ⟨h2.2, h2.1⟩
      · simp at hlt
      · simp at hlt
    · rintro ⟨h500, hbudget⟩
      simp only [wvStep]
      rw [if_pos (by omega), if_pos ⟨hbudget, h500⟩]
      simp [retryUpdate]
  · intro h400 h500
    simp only [wvStep]
    rw [if_pos h400, if_neg (by omega)]
    exact ⟨rfl, rfl⟩
  · intro hlt
    simp only [wvStep]
    rw [if_neg (by omega)]

/-- Witness for C10: HTTP 404 with retry budget left (0 of 3 used)
still reports immediately; HTTP 301 changes nothing; HTTP 503 with
budget left retries. -/
theorem uvp_httpError_spec_witness :
    ((wvStep ⟨"vimeo", "Vimeo", "https://vimeo.com/1", 3⟩
        (.httpError 404 "https://vimeo.com/1") uvpInit).2 =
      some "HTTP Error 404: https://vimeo.com/1")
  ∧ wvStep ⟨"vimeo", "Vimeo", "https://vimeo.com/1", 3⟩
      (.httpError 301 "https://vimeo.com/1") uvpInit = (uvpInit, none)
  ∧ ((0 : Nat) < (wvStep ⟨"vimeo", "Vimeo", "https://vimeo.com/1", 3⟩
        (.httpError 503 "https://vimeo.com/1") uvpInit).1.retryCount) :=
  ⟨((uvp_httpError_spec ⟨"vimeo", "Vimeo", "https://vimeo.com/1", 3⟩ uvpInit
      404 "https://vimeo.com/1").2.1 (by decide) (by decide)).2,
   (uvp_httpError_spec ⟨"vimeo", "Vimeo", "https://vimeo.com/1", 3⟩ uvpInit
      301 "https://vimeo.com/1").2.2 (by decide),
   (uvp_httpError_spec ⟨"vimeo", "Vimeo", "https://vimeo.com/1", 3⟩ uvpInit
      503 "https://vimeo.com/1").1.2 ⟨by decide, by decide⟩⟩

/-! ## UniversalVideoPlayer: YouTube embed URL selection -/

/-- `getYouTubeEmbedUrl` (lines 218-235): the standard
`youtube.com/embed` URL with the fixed parameter set (the
`URLSearchParams` serialization, in insertion order). -/
def getYouTubeEmbedUrl (autoPlay : Bool) (videoId : String) : String :=
  "https://www.youtube.com/embed/" ++ videoId ++ "?autoplay="
    ++ (if autoPlay then "1" else "0")
    ++ "&playsinline=1&rel=0&modestbranding=1&fs=1&iv_load_policy=3&enablejsapi=1&controls=1&showinfo=0&cc_load_policy=0&disablekb=0&widget_referrer=https%3A%2F%2Frork.app"

/-- `getYouTubeWebPlayerUrl` (lines 237-240): the full
`youtube.com/watch` page URL. -/
def getYouTubeWebPlayerUrl (autoPlay : Bool) (videoId : String) : String :=
  "https://www.youtube.com/watch?v=" ++ videoId ++ "&autoplay="
    ++ (if autoPlay then "1" else "0")

/-- `getYouTubeNoEmbedUrl` (lines 242-254): the
`youtube-nocookie.com/embed` URL. -/
def getYouTubeNoEmbedUrl (autoPlay : Bool) (videoId : String) : String :=
  "https://www.youtube-nocookie.com/embed/" ++ videoId ++ "?autoplay="
    ++ (if autoPlay then "1" else "0")
    ++ "&playsinline=1&rel=0&modestbranding=1&controls=1&fs=1&enablejsapi=0"

/-- `getVimeoEmbedUrl` (lines 256-258). -/
def getVimeoEmbedUrl (autoPlay : Bool) (videoId : String) : String :=
  "https://player.vimeo.com/video/" ++ videoId ++ "?autoplay="
    ++ (if autoPlay then "1" else "0")

/-- The YouTube embed URL chosen for a given `retryCount`
(lines 300-309): `retryCount === 0` uses the standard embed,
`retryCount === 1` the watch page, and every later count the nocookie
embed. -/
def youtubeEmbedUrlFor (autoPlay : Bool) (videoId : String) (retryCount : Nat) : String :=
  if retryCount = 0 then getYouTubeEmbedUrl autoPlay videoId
  else if retryCount = 1 then getYouTubeWebPlayerUrl autoPlay videoId
  else getYouTubeNoEmbedUrl autoPlay videoId

/-- The embed URL `renderWebViewPlayer` passes to the WebView
(lines 293-331): YouTube and Vimeo URLs with a (truthy) video id are
rewritten through the generators above; everything else loads the
original `url`. -/
def renderWebViewEmbedUrl (si : SourceInfo) (autoPlay : Bool) (url : String)
    (retryCount : Nat) : String :=
  if si.type = "youtube" ∧ jsTruthy si.videoId = true then
    youtubeEmbedUrlFor autoPlay (si.videoId.getD "") retryCount
  else if si.type = "vimeo" ∧ jsTruthy si.videoId = true then
    getVimeoEmbedUrl autoPlay (si.videoId.getD "")
  else url

/-- Counterexample to C4 as stated: with the default `maxRetries = 3`,
the state with `retryCount = 3` is reached by automatic retries (three
consecutive load errors from the initial state, with no final error
reported yet), but the attempt at `retryCount = 3` loads exactly the
same URL as the attempt at `retryCount = 2` — the third automatic retry
does not advance to a next generator, so the lookup is not one distinct
generator per retry. -/
theorem youtube_retry_generator_counterexample :
    (wvRun ⟨"youtube", "YouTube", "https://www.youtube.com/watch?v=dQw4w9WgXcQ", 3⟩
      [.loadError "e", .loadError "e", .loadError "e"] uvpInit).retryCount = 3
  ∧ (wvRun ⟨"youtube", "YouTube", "https://www.youtube.com/watch?v=dQw4w9WgXcQ", 3⟩
      [.loadError "e", .loadError "e", .loadError "e"] uvpInit).playbackError = none
  ∧ youtubeEmbedUrlFor false "dQw4w9WgXcQ" 3 = youtubeEmbedUrlFor false "dQw4w9WgXcQ" 2
  ∧ youtubeEmbedUrlFor false "dQw4w9WgXcQ" 2 ≠ youtubeEmbedUrlFor false "dQw4w9WgXcQ" 1 := by
  refine ⟨by decide, by decide, rfl, by decide⟩

/-- C4, amended: the YouTube embed URL is an ordered list lookup on the
retry counter with the index clamped at the last entry — `retryCount 0`
uses the standard `youtube.com/embed` URL, `retryCount 1` the
`youtube.com/watch` page URL, and every `retryCount >= 2` the
`youtube-nocookie.com/embed` URL — so each of the three distinct
generation methods is tried before the final error is reported, but
retries beyond the third reuse the nocookie generator rather than
advancing further. -/
theorem youtube_retry_generator_amended (a : Bool) (v : String) (r : Nat) :
    youtubeEmbedUrlFor a v r =
      [getYouTubeEmbedUrl a v, getYouTubeWebPlayerUrl a v,
        getYouTubeNoEmbedUrl a v].getD (min r 2) ""
  ∧ (r = 0 → youtubeEmbedUrlFor a v r = getYouTubeEmbedUrl a v)
  ∧ (r = 1 → youtubeEmbedUrlFor a v r = getYouTubeWebPlayerUrl a v)
  ∧ (2 ≤ r → youtubeEmbedUrlFor a v r = getYouTubeNoEmbedUrl a v) := by
  refine ⟨?_, ?_, ?_, ?_⟩
  · match r with
    | 0 => rfl
    | 1 => rfl
    | n + 2 =>
      have hmin : min (n + 2) 2 = 2 := by omega
      simp [youtubeEmbedUrlFor, hmin]
  · rintro rfl; rfl
  · rintro rfl; rfl
  · intro h
    match r, h with
    | n + 2, _ => simp [youtubeEmbedUrlFor]

/-- Witness for C4's amended statement at a concrete video id and
retry counts 0, 1 and 2. -/
theorem youtube_retry_generator_amended_witness :
    youtubeEmbedUrlFor false "dQw4w9WgXcQ" 0 = getYouTubeEmbedUrl false "dQw4w9WgXcQ"
  ∧ youtubeEmbedUrlFor false "dQw4w9WgXcQ" 1 = getYouTubeWebPlayerUrl false "dQw4w9WgXcQ"
  ∧ youtubeEmbedUrlFor false "dQw4w9WgXcQ" 2 = getYouTubeNoEmbedUrl false "dQw4w9WgXcQ" :=
  ⟨(youtube_retry_generator_amended false "dQw4w9WgXcQ" 0).2.1 rfl,
   (youtube_retry_generator_amended false "dQw4w9WgXcQ" 1).2.2.1 rfl,
   (youtube_retry_generator_amended false "dQw4w9WgXcQ" 2).2.2.2 (by decide)⟩

/-! ## SocialMediaPlayer: exhausting all strategies (C5) -/

lemma runChainFuel_all_null (cfg : SocialMediaConfig) (url : String)
    (hnull : ∀ st ∈ cfg.embedStrategies, st.getEmbedUrl url = none) :
    ∀ (n : Nat) (s : SMPState),
      s.currentStrategyIndex + n = cfg.embedStrategies.length →
      ∀ fuel, n + 1 ≤ fuel →
      runChainFuel cfg url fuel s =
        ({ s with
            currentStrategyIndex := cfg.embedStrategies.length
            error := some ("Failed to load " ++ cfg.platform ++
              " video after trying all strategies")
            isLoading := false },
          some ("Failed to load " ++ cfg.platform ++
            " video after trying all strategies"),
          List.range' s.currentStrategyIndex n) := by
  intro n
  induction n with
  | zero =>
    intro s hlen fuel hfuel
    match fuel, hfuel with
    | f + 1, _ =>
      have hidx : s.currentStrategyIndex = cfg.embedStrategies.length := by omega
      have hge : s.currentStrategyIndex ≥ cfg.embedStrategies.length := by omega
      have hnotlt : ¬ s.currentStrategyIndex < cfg.embedStrategies.length := by omega
      simp only [runChainFuel, tryNextStrategy]
      rw [if_pos hge]
      simp only [Nat.self_eq_add_right, one_ne_zero, if_false, hnotlt, List.range']
      cases s
      simp_all
  | succ n ih =>
    intro s hlen fuel hfuel
    match fuel, hfuel with
    | f + 1, _ =>
      have hlt : s.currentStrategyIndex < cfg.embedStrategies.length := by omega
      have hnotge : ¬ s.currentStrategyIndex ≥ cfg.embedStrategies.length := by omega
      have hmem : cfg.embedStrategies.getD s.currentStrategyIndex dummyStrategy
          ∈ cfg.embedStrategies := by
        rw [List.getD_eq_getElem?_getD, List.getElem?_eq_getElem hlt]
        exact List.getElem_mem hlt
      have hstrat := hnull _ hmem
      simp only [runChainFuel, tryNextStrategy]
      rw [if_neg hnotge, hstrat]
      simp only [if_pos rfl]
      have hrec := ih { s with currentStrategyIndex := s.currentStrategyIndex + 1 }
        (by simp; omega) f (by omega)
      rw [hrec]
      simp [List.range']

/-- C5: with a config whose strategies all fail to produce an embed URL
for the given url, the chain of strategy advances from the initial
state tries each of the `embedStrategies.length` strategies exactly
once, in index order and none skipped, then stops with the error
`Failed to load {platform} video after trying all strategies`, clears
the loading flag, and passes that message to `onError`; no embed URL is
installed. -/
theorem smp_all_strategies_null_chain (cfg : SocialMediaConfig) (url : String)
    (hnull : ∀ st ∈ cfg.embedStrategies, st.getEmbedUrl url = none) :
    runChain cfg url smpInit =
      ({ smpInit with
          currentStrategyIndex := cfg.embedStrategies.length
          error := some ("Failed to load " ++ cfg.platform ++
            " video after trying all strategies")
          isLoading := false },
        some ("Failed to load " ++ cfg.platform ++
          " video after trying all strategies"),
        List.range cfg.embedStrategies.length) := by
  have h := runChainFuel_all_null cfg url hnull cfg.embedStrategies.length smpInit
    (by simp [smpInit]) (cfg.embedStrategies.length + 1) (by omega)
  simp only [runChain, smpInit, Nat.sub_zero] at h ⊢
  rw [h, List.range_eq_range']

/-- Witness for C5: a two-strategy TikTok config whose strategies both
return null terminates after exactly two advances, trying strategies 0
and 1 in order. -/
theorem smp_all_strategies_null_chain_witness :
    runChain ⟨"TikTok", [⟨"embed api", fun _ => none⟩, ⟨"mobile page", fun _ => none⟩]⟩
      "https://www.tiktok.com/@u/video/1" smpInit =
      ({ smpInit with
          currentStrategyIndex := 2
          error := some "Failed to load TikTok video after trying all strategies"
          isLoading := false },
        some "Failed to load TikTok video after trying all strategies",
        [0, 1]) :=
  smp_all_strategies_null_chain
    ⟨"TikTok", [⟨"embed api", fun _ => none⟩, ⟨"mobile page", fun _ => none⟩]⟩
    "https://www.tiktok.com/@u/video/1"
    (by intro st hst; fin_cases hst <;> rfl)

/-! ## UniversalVideoPlayer: eligibility gating (C7) and safeUrl (C9) -/

/-- The membership-eligibility effect (lines 104-108): when
`canPlayVideo` reports the video cannot be played, set `playbackError`
to the reported reason (or `Cannot play this video`) and invoke
`onError` with it.  First component: the `playbackError` written;
second: the `onError` argument. -/
def eligibilityEffect (e : PlaybackEligibility) : Option String × Option String :=
  if e.canPlay then (none, none)
  else
    let msg := jsOrElse e.reason "Cannot play this video"
    (some msg, some msg)

/-- The component's top-level render (lines 590-592 and 632-652): a
truthy `playbackError` short-circuits to the error view before any
player surface is chosen. -/
def uvpTopRender (playbackError : Option String) (hasSocialConfig : Bool)
    (si : SourceInfo) : PlayerChoice :=
  if jsTruthy playbackError then .errorView
  else selectPlayer hasSocialConfig si

lemma jsOrElse_cannot_play_ne_empty (x : Option String) :
    jsOrElse x "Cannot play this video" ≠ "" := by
  cases x with
  | none => decide
  | some s =>
    simp only [jsOrElse]
    split
    · decide
    · assumption

/-- C7: whenever eligibility says the video cannot be played,
`UniversalVideoPlayer` sets `playbackError` to the eligibility reason
(or `Cannot play this video` when none is given), invokes `onError`
with that message, and renders the error view rather than any player
surface. -/
theorem uvp_eligibility_error_spec (e : PlaybackEligibility) (c : Bool)
    (si : SourceInfo) (hc : e.canPlay = false) :
    (eligibilityEffect e).1 = some (jsOrElse e.reason "Cannot play this video")
  ∧ (eligibilityEffect e).2 = some (jsOrElse e.reason "Cannot play this video")
  ∧ (e.reason = none → (eligibilityEffect e).2 = some "Cannot play this video")
  ∧ uvpTopRender (eligibilityEffect e).1 c si = .errorView := by
  have hmsg := jsOrElse_cannot_play_ne_empty e.reason
  refine ⟨by simp [eligibilityEffect, hc], by simp [eligibilityEffect, hc], ?_, ?_⟩
  · intro hr
    simp [eligibilityEffect, hc, hr, jsOrElse]
  · simp [eligibilityEffect, hc, uvpTopRender, jsTruthy, hmsg]

/-- Witness for C7: a free-tier rejection with an explicit reason on a
youtube source renders the error view and reports the reason. -/
theorem uvp_eligibility_error_spec_witness :
    (eligibilityEffect ⟨false, some "Premium membership required"⟩).2 =
      some "Premium membership required"
  ∧ uvpTopRender (eligibilityEffect ⟨false, some "Premium membership required"⟩).1
      false ⟨"youtube", "YouTube", true, false, some "abc"⟩ = .errorView :=
  ⟨(uvp_eligibility_error_spec ⟨false, some "Premium membership required"⟩
      false ⟨"youtube", "YouTube", true, false, some "abc"⟩ rfl).2.1,
   (uvp_eligibility_error_spec ⟨false, some "Premium membership required"⟩
      false ⟨"youtube", "YouTube", true, false, some "abc"⟩ rfl).2.2.2⟩

/-- The fixed fallback media file substituted for the native player
when the url is not a native-playable, non-blank URL (line 77). -/
def sampleUrl : String :=
  "https://commondatastorage.googleapis.com/gtv-videos-bucket/sample/BigBuckBunny.mp4"

/-- `shouldUseNativePlayer` (lines 69-73). -/
def shouldUseNativePlayer (si : SourceInfo) : Bool :=
  si.type == "direct" || si.type == "stream" ||
    si.type == "hls" || si.type == "dash"

/-- The ECMAScript WhiteSpace and LineTerminator characters stripped by
`String.prototype.trim`: TAB, LF, VT, FF, CR, SP, NBSP, the Unicode
space separators (Zs: OGHAM SPACE MARK, EN QUAD .. HAIR SPACE, NNBSP,
MMSP, IDEOGRAPHIC SPACE), LINE SEPARATOR, PARAGRAPH SEPARATOR and
ZWNBSP/BOM, by code point. -/
def isJsWhitespace (c : Char) : Bool :=
  [0x9, 0xA, 0xB, 0xC, 0xD, 0x20, 0xA0, 0x1680,
    0x2000, 0x2001, 0x2002, 0x2003, 0x2004, 0x2005, 0x2006, 0x2007,
    0x2008, 0x2009, 0x200A, 0x2028, 0x2029, 0x202F, 0x205F, 0x3000,
    0xFEFF].contains c.toNat

/-- JavaScript `String.prototype.trim`: strip leading and trailing
ECMAScript whitespace (executable character-list form). -/
def jsTrim (s : String) : String :=
  ⟨((s.data.dropWhile isJsWhitespace).reverse.dropWhile
      isJsWhitespace).reverse⟩

/-- `safeUrl` (line 77): the url handed to `useVideoPlayer`. -/
def safeUrl (si : SourceInfo) (url : String) : String :=
  if shouldUseNativePlayer si && url != "" && jsTrim url != "" then url
  else sampleUrl

/-- C9: the given url reaches `useVideoPlayer` only when the detected
type is direct, stream, hls or dash and the url is non-blank after
trimming; in every other case the fixed Big Buck Bunny sample URL is
substituted. -/
theorem uvp_safeUrl_spec (si : SourceInfo) (url : String) :
    (shouldUseNativePlayer si = true ↔ si.type ∈ nativeTypes)
  ∧ (shouldUseNativePlayer si = true → jsTrim url ≠ "" → safeUrl si url = url)
  ∧ (¬ (shouldUseNativePlayer si = true ∧ jsTrim url ≠ "") →
      safeUrl si url = sampleUrl) := by
  refine ⟨?_, ?_, ?_⟩
  · simp [shouldUseNativePlayer, nativeTypes, Bool.or_eq_true, or_assoc]
  · intro hn ht
    have hne : url ≠ "" := by
      intro h
      apply ht
      rw [h]
      rfl
    simp [safeUrl, hn, hne, ht]
  · intro hcon
    cases hb : shouldUseNativePlayer si with
    | false => simp [safeUrl, hb]
    | true =>
      have ht : jsTrim url = "" := by
        by_contra h
        exact hcon ⟨hb, h⟩
      simp [safeUrl, ht]

/-- Witness for C9: a non-blank direct URL is passed through; a
space-only direct URL, a direct URL consisting of a single no-break
space (blank under JS trim), and a youtube URL are all replaced by the
sample URL. -/
theorem uvp_safeUrl_spec_witness :
    safeUrl ⟨"direct", "Direct", false, false, none⟩ "https://cdn.example.com/a.mp4"
      = "https://cdn.example.com/a.mp4"
  ∧ safeUrl ⟨"direct", "Direct", false, false, none⟩ "   " = sampleUrl
  ∧ safeUrl ⟨"direct", "Direct", false, false, none⟩ "\u00A0" = sampleUrl
  ∧ safeUrl ⟨"youtube", "YouTube", true, false, some "abc"⟩
      "https://www.youtube.com/watch?v=abc" = sampleUrl :=
  ⟨(uvp_safeUrl_spec ⟨"direct", "Direct", false, false, none⟩
      "https://cdn.example.com/a.mp4").2.1 rfl (by decide),
   (uvp_safeUrl_spec ⟨"direct", "Direct", false, false, none⟩ "   ").2.2
      (by intro h; exact h.2 (by decide)),
   (uvp_safeUrl_spec ⟨"direct", "Direct", false, false, none⟩ "\u00A0").2.2
      (by intro h; exact h.2 (by decide)),
   (uvp_safeUrl_spec ⟨"youtube", "YouTube", true, false, some "abc"⟩
      "https://www.youtube.com/watch?v=abc").2.2
      (by intro h; simp [shouldUseNativePlayer] at h)⟩
